import Mathlib

/-!
# Verification of the Mnemosine front-end session/token lifecycle

Shallow embedding of the session-lifecycle code of the Mnemosine web client:

* `src/services/api.ts` — the `ApiService` class (login/logout storage
  effects, the list of methods the class defines);
* `src/hooks/useAuth.tsx` — the `AuthProvider` session controller
  (`startExpirationTimers`, `refreshAccessToken`, `extendSession`,
  `handleUserActivity`, `logout`);
* `src/hooks/useActivityDetector.ts` — the activity detector
  (`handleActivity`, its throttle and inactivity timeouts);
* `src/services/googleCalendar.ts` — the Google-Calendar token manager
  (`saveToken`, `restoreToken`, `clearToken`, `checkAndRefreshToken`,
  `silentRefresh`, `isSignedIn`, `getEvents`, `createEvent`,
  `updateEvent`, `deleteEvent`).

Timestamps are modelled as `Int` milliseconds (the JavaScript `Date.now()`
clock).  `setTimeout` handles are modelled by the scheduled fire time of
the pending callback: re-arming a timer overwrites the deadline (the old
callback is cancelled and can never fire), and a fired one-shot timer sets
its deadline to `none`.  Browser `localStorage` is an association list of
string keys and values.
-/

namespace Mnemosine

/-! ## Browser localStorage -/

/-- `localStorage`: an association list of string keys and string values.
The earliest binding of a key is the visible one. -/
abbrev Storage : Type := List (String × String)

def Storage.getItem (st : Storage) (k : String) : Option String :=
  match st with
  | [] => none
  | (k0, v0) :: rest => if k0 = k then some v0 else Storage.getItem rest k

def Storage.removeItem (st : Storage) (k : String) : Storage :=
  match st with
  | [] => []
  | (k0, v0) :: rest =>
      if k0 = k then Storage.removeItem rest k
      else (k0, v0) :: Storage.removeItem rest k

def Storage.setItem (st : Storage) (k v : String) : Storage :=
  (k, v) :: Storage.removeItem st k

def emptyStorage : Storage := []

/-- Storage key `access_token` used by `ApiService` and `useAuth`. -/
def accessTokenKey : String := "access_token"

/-- Storage key `user` used by `ApiService` and `useAuth`. -/
def userKey : String := "user"

/-- Storage key `refresh_token` read by `refreshAccessToken` in `useAuth`. -/
def refreshTokenKey : String := "refresh_token"

/-! ## ApiService (src/services/api.ts) -/

/-- The names of the methods the `ApiService` class defines
(src/services/api.ts, class body in declaration order).  JavaScript method
dispatch `apiService.m(...)` succeeds only when `m` is in this list;
otherwise the property access yields `undefined` and the call throws a
`TypeError`. -/
def ApiService.methodNames : List String :=
  [r"register", r"login", r"getCurrentUser", r"logout",
   r"getArmarios", r"getArmario", r"createArmario", r"updateArmario",
   r"deleteArmario", r"setDefaultArmario",
   r"getCajasByArmario", r"getCaja", r"createCaja", r"updateCaja", r"deleteCaja",
   r"getCajitasByCaja", r"getCajita", r"createCajita", r"updateCajita", r"deleteCajita",
   r"getNotasByContainer", r"getNota", r"createNota", r"updateNota", r"deleteNota",
   r"moveNota", r"searchNotas", r"getAllEtiquetas",
   r"createReminder", r"getReminderByEventId", r"updateReminder", r"deleteReminder",
   r"createInternalReminder", r"getInternalReminders", r"getInternalReminder",
   r"updateInternalReminder", r"deleteInternalReminder"]

/-- Whether the `ApiService` class defines a method of the given name. -/
def ApiService.hasMethod (name : String) : Bool :=
  ApiService.methodNames.contains name

/-- Storage effect of `ApiService.login` (src/services/api.ts): on a
successful response it persists exactly the access token and the user
JSON — `localStorage.setItem('access_token', …); localStorage.setItem('user', …)`. -/
def ApiService.loginStorage (st : Storage) (accessToken userJson : String) : Storage :=
  (st.setItem accessTokenKey accessToken).setItem userKey userJson

/-- Storage effect of `ApiService.logout`: removes `access_token` and `user`. -/
def ApiService.logoutStorage (st : Storage) : Storage :=
  (st.removeItem accessTokenKey).removeItem userKey

/-! ## Session controller (src/hooks/useAuth.tsx) -/

/-- `TOKEN_EXPIRE_TIME = 30 * 60 * 1000` (30 minutes, ms). -/
def TOKEN_EXPIRE_TIME : Int := 30 * 60 * 1000

/-- `WARNING_TIME = 5 * 60 * 1000` (warning 5 minutes before expiry, ms). -/
def WARNING_TIME : Int := 5 * 60 * 1000

/-- `INACTIVITY_TIMEOUT = 25 * 60 * 1000` (inactivity window passed to the
activity detector by `AuthProvider`, ms). -/
def INACTIVITY_TIMEOUT : Int := 25 * 60 * 1000

/-- `REFRESH_THROTTLE = 2 * 60 * 1000` (server-refresh throttle window in
`handleUserActivity`, ms). -/
def REFRESH_THROTTLE : Int := 2 * 60 * 1000

/-- State of the `AuthProvider` session controller.  React refs and state
cells become fields; the two one-shot timeouts are modelled by their
scheduled fire times (`none` = no pending callback).  The fields
`refreshCallsIssued`, `warningFiredCount`, `expireFiredCount`, `loggedOut`
and `navigatedToLogin` instrument the observable effects the claims are
about. -/
structure AuthState where
  isAuthenticated : Bool
  sessionExpiringWarning : Bool
  expiryTime : Option Int
  warningAt : Option Int
  expireAt : Option Int
  lastTokenRefresh : Int
  minutesUntilExpiry : Int
  refreshCallsIssued : Nat
  warningFiredCount : Nat
  expireFiredCount : Nat
  loggedOut : Bool
  navigatedToLogin : Bool
  deriving Repr, DecidableEq

/-- A session-controller state together with the browser localStorage. -/
structure World where
  storage : Storage
  auth : AuthState
  deriving Repr, DecidableEq

def initAuthState : AuthState :=
  { isAuthenticated := false, sessionExpiringWarning := false,
    expiryTime := none, warningAt := none, expireAt := none,
    lastTokenRefresh := 0, minutesUntilExpiry := 30,
    refreshCallsIssued := 0, warningFiredCount := 0, expireFiredCount := 0,
    loggedOut := false, navigatedToLogin := false }

def initWorld : World := { storage := emptyStorage, auth := initAuthState }

/-- `logout()` in `useAuth.tsx`: clears the three timers, calls
`apiService.logout()` (removing `access_token` and `user` from storage),
sets `user` to `null` and `minutesUntilExpiry` to 0, and redirects the
document to `/login` after a short delay.  It does not touch the
`sessionExpiringWarning` flag. -/
def logout (w : World) : World :=
  { storage := ApiService.logoutStorage w.storage,
    auth := { w.auth with
                warningAt := none, expireAt := none, expiryTime := w.auth.expiryTime,
                isAuthenticated := false, minutesUntilExpiry := 0,
                loggedOut := true, navigatedToLogin := true } }

/-- `startExpirationTimers()` in `useAuth.tsx`: clears the previous
warning/expiry timeouts and the countdown interval, sets the expiry time
to `now + TOKEN_EXPIRE_TIME`, resets the displayed minutes to 30, and
schedules the warning callback at `now + TOKEN_EXPIRE_TIME − WARNING_TIME`
and the automatic-logout callback at `now + TOKEN_EXPIRE_TIME`. -/
def startExpirationTimers (now : Int) (a : AuthState) : AuthState :=
  { a with
      expiryTime := some (now + TOKEN_EXPIRE_TIME),
      minutesUntilExpiry := 30,
      warningAt := some (now + TOKEN_EXPIRE_TIME - WARNING_TIME),
      expireAt := some (now + TOKEN_EXPIRE_TIME) }

/-- `refreshAccessToken()` in `useAuth.tsx`.  It reads
`localStorage.getItem('refresh_token')`; with no stored refresh token it
logs out and returns.  Otherwise it calls `apiService.refreshToken(…)`:
since JavaScript method dispatch only succeeds for methods the class
defines, a missing method throws a `TypeError`, which the surrounding
`try`/`catch` turns into `logout()`.  When the dispatch succeeds,
`serverResult` is the outcome of the network call: `some newToken` stores
the new access token, records the refresh time, restarts the expiration
timers and clears the warning flag; `none` (a rejected call) is caught and
logs out.  Each invocation counts as one issued server refresh call. -/
def refreshAccessToken (now : Int) (serverResult : Option String) (w : World) : World :=
  match w.storage.getItem refreshTokenKey with
  | none => logout w
  | some _ =>
      if ApiService.hasMethod (r"refreshToken") then
        match serverResult with
        | some newToken =>
            { storage := w.storage.setItem accessTokenKey newToken,
              auth := { startExpirationTimers now
                          { w.auth with lastTokenRefresh := now } with
                          sessionExpiringWarning := false } }
        | none => logout w
      else logout w

/-- `extendSession()` in `useAuth.tsx`: simply invokes `refreshAccessToken()`. -/
def extendSession (now : Int) (serverResult : Option String) (w : World) : World :=
  refreshAccessToken now serverResult w

/-- `handleUserActivity()` in `useAuth.tsx`.  Only when the user is
authenticated and the expiry warning is not showing: always restart the
expiration timers locally; additionally, when more than `REFRESH_THROTTLE`
has elapsed since the last server refresh, record the refresh time and
invoke `refreshAccessToken()`.  Although declared `async`, with this
client's `ApiService` every path of `refreshAccessToken` completes with
no intervening suspension point (the missing-token check and the
`TypeError` from the missing `refreshToken` method both run before any
`await`), so its invocation — ending in `logout()`, which cancels the
timers just armed — takes effect synchronously inside the handler.  The
returned Boolean reports whether a server refresh call was issued. -/
def handleUserActivity (now : Int) (serverResult : Option String) (w : World) : World × Bool :=
  if w.auth.isAuthenticated ∧ ¬ w.auth.sessionExpiringWarning then
    let a := startExpirationTimers now w.auth
    if now - a.lastTokenRefresh > REFRESH_THROTTLE then
      let a2 := { a with lastTokenRefresh := now,
                         refreshCallsIssued := a.refreshCallsIssued + 1 }
      (refreshAccessToken now serverResult { w with auth := a2 }, true)
    else
      ({ w with auth := a }, false)
  else (w, false)

/-- Deliver a sequence of activity signals (timestamps) to
`handleUserActivity`, in order (`serverResult` is the outcome any issued
server refresh call would have). -/
def runActivitySignals (serverResult : Option String) (ts : List Int) (w : World) : World :=
  match ts with
  | [] => w
  | t :: rest => runActivitySignals serverResult rest (handleUserActivity t serverResult w).1

/-- The `login` function of `AuthProvider` (success path): it performs
`apiService.login` (persisting exactly `access_token` and `user`), sets the
user, records `lastTokenRefreshRef.current = Date.now()` and starts the
expiration timers. -/
def login (now : Int) (accessToken userJson : String) (w : World) : World :=
  { storage := ApiService.loginStorage w.storage accessToken userJson,
    auth := startExpirationTimers now
              { w.auth with isAuthenticated := true, lastTokenRefresh := now } }

/-- Fire the session-controller timers that are due at virtual time `t`:
the warning timeout callback sets `sessionExpiringWarning`, and the expiry
timeout callback unconditionally invokes `logout()`.  Each `setTimeout`
callback is one-shot: firing consumes the deadline. -/
def fireDueTimers (t : Int) (w : World) : World :=
  let w1 :=
    match w.auth.warningAt with
    | some d =>
        if d ≤ t then
          { w with auth := { w.auth with warningAt := none,
                                          sessionExpiringWarning := true,
                                          warningFiredCount := w.auth.warningFiredCount + 1 } }
        else w
    | none => w
  match w1.auth.expireAt with
  | some d =>
      if d ≤ t then
        let a2 := { w1.auth with expireAt := none,
                                 expireFiredCount := w1.auth.expireFiredCount + 1 }
        logout { w1 with auth := a2 }
      else w1
  | none => w1

/-- Advance virtual time through a list of observation instants, firing
the due session-controller timers at each. -/
def advanceThrough (ts : List Int) (w : World) : World :=
  match ts with
  | [] => w
  | t :: rest => advanceThrough rest (fireDueTimers t w)

/-- Arm the session timer at virtual time `t0` (the spec's `arm`): the
controller runs `startExpirationTimers()`, which cancels the previous
schedules and installs the warning and expiry deadlines. -/
def armSession (t0 : Int) (w : World) : World :=
  { w with auth := startExpirationTimers t0 w.auth }

/-! ## Activity detector (src/hooks/useActivityDetector.ts) -/

/-- Configuration of `useActivityDetector`: whether the `onActivity` and
`onInactivity` callbacks were provided, the inactivity timeout and the
throttle window (component defaults: 5 minutes and 1 second). -/
structure DetectorConfig where
  hasOnActivity : Bool
  hasOnInactivity : Bool
  inactivityTimeout : Int
  throttle : Int
  deriving Repr, DecidableEq

/-- The detector configuration `AuthProvider` passes to
`useActivityDetector`: both callbacks are replaced by `onActivity` only
(`onInactivity` is not passed), `inactivityTimeout = INACTIVITY_TIMEOUT`
and `throttle = 5000`. -/
def authDetectorConfig : DetectorConfig :=
  { hasOnActivity := true, hasOnInactivity := false,
    inactivityTimeout := INACTIVITY_TIMEOUT, throttle := 5000 }

/-- State of the activity detector.  `throttleUntil` models
`throttleTimeoutRef`: `some u` means the throttle-release timeout is
pending and will fire at time `u` (setting the ref back to `null`);
`inactivityAt` models `inactivityTimeoutRef` by the scheduled fire time of
the pending inactivity callback.  `onActivityCalls` and
`onInactivityCalls` count callback invocations. -/
structure DetectorState where
  lastActivity : Int
  throttleUntil : Option Int
  inactivityAt : Option Int
  isActive : Bool
  onActivityCalls : Nat
  onInactivityCalls : Nat
  deriving Repr, DecidableEq

/-- `handleActivity()` in `useActivityDetector.ts`, processing one raw
DOM activity event at time `now`: record `lastActivity`; if the detector
was inactive (and an `onActivity` callback exists) flip back to active;
if no throttle timeout is pending, invoke `onActivity` (when provided)
and start a new throttle window of `cfg.throttle` ms, otherwise drop the
event; finally, unconditionally clear and restart the inactivity timeout
at `now + cfg.inactivityTimeout`. -/
def handleActivity (cfg : DetectorConfig) (now : Int) (s : DetectorState) : DetectorState :=
  let s1 := { s with lastActivity := now }
  let s2 := if ¬ s1.isActive ∧ cfg.hasOnActivity then { s1 with isActive := true } else s1
  let s3 :=
    match s2.throttleUntil with
    | none =>
        let s2a := if cfg.hasOnActivity
                   then { s2 with onActivityCalls := s2.onActivityCalls + 1 }
                   else s2
        { s2a with throttleUntil := some (now + cfg.throttle) }
    | some _ => s2
  { s3 with inactivityAt := some (now + cfg.inactivityTimeout) }

/-- The throttle-release timeout scheduled by `handleActivity`
(`throttleTimeoutRef.current = null` when it fires): due at `t` when its
deadline has been reached. -/
def releaseThrottleIfDue (t : Int) (s : DetectorState) : DetectorState :=
  match s.throttleUntil with
  | some u => if u ≤ t then { s with throttleUntil := none } else s
  | none => s

/-- The inactivity timeout callback scheduled by `handleActivity`: when it
fires with the detector still active (and an `onInactivity` callback
provided), it flips `isActive` to false and invokes `onInactivity`;
otherwise it only consumes the one-shot timeout. -/
def fireInactivityIfDue (cfg : DetectorConfig) (t : Int) (s : DetectorState) : DetectorState :=
  match s.inactivityAt with
  | some d =>
      if d ≤ t then
        let s2 := { s with inactivityAt := none }
        if s2.isActive ∧ cfg.hasOnInactivity then
          { s2 with isActive := false, onInactivityCalls := s2.onInactivityCalls + 1 }
        else s2
      else s
  | none => s

/-- Fire the detector timeouts due at virtual time `t`: the throttle
release and the inactivity callback are independent one-shot timeouts. -/
def fireDetectorTimers (cfg : DetectorConfig) (t : Int) (s : DetectorState) : DetectorState :=
  fireInactivityIfDue cfg t (releaseThrottleIfDue t s)

/-- One step of a detector run: either a raw activity event at a time, or
an advance of virtual time (firing whatever timeouts are due). -/
inductive DetectorStep where
  | ev (t : Int)
  | advance (t : Int)
  deriving Repr, DecidableEq

/-- Run the detector over a list of steps.  A raw event at time `t` first
fires the timeouts due at `t`, then runs `handleActivity`. -/
def runDetector (cfg : DetectorConfig) (steps : List DetectorStep) (s : DetectorState) :
    DetectorState :=
  match steps with
  | [] => s
  | DetectorStep.ev t :: rest =>
      runDetector cfg rest (handleActivity cfg t (fireDetectorTimers cfg t s))
  | DetectorStep.advance t :: rest =>
      runDetector cfg rest (fireDetectorTimers cfg t s)

/-- The number of raw activity events in a list of detector steps. -/
def countEvents (steps : List DetectorStep) : Nat :=
  match steps with
  | [] => 0
  | DetectorStep.ev _ :: rest => countEvents rest + 1
  | DetectorStep.advance _ :: rest => countEvents rest

/-- Run the detector over raw activity events only (each event fires due
timeouts first, as in `runDetector`). -/
def runEvents (cfg : DetectorConfig) (ts : List Int) (s : DetectorState) : DetectorState :=
  runDetector cfg (ts.map DetectorStep.ev) s

/-! ## Google Calendar token manager (src/services/googleCalendar.ts) -/

/-- `restoreToken`'s validity buffer: 5 minutes (ms). -/
def CALENDAR_RESTORE_BUFFER : Int := 5 * 60 * 1000

/-- `checkAndRefreshToken`'s refresh buffer: 10 minutes (ms). -/
def CALENDAR_REFRESH_BUFFER : Int := 10 * 60 * 1000

/-- `startAutoRefresh`'s poll interval: 5 minutes (ms). -/
def AUTO_REFRESH_INTERVAL : Int := 5 * 60 * 1000

/-- State of `GoogleCalendarService`: the in-memory `accessToken` field,
and the two localStorage keys it owns — `google_calendar_token`
(`storedToken`) and `google_calendar_token_expiry` (`storedExpiry`, a
stringified integer, modelled as the integer it parses back to). -/
structure CalTokenState where
  accessToken : Option String
  storedToken : Option String
  storedExpiry : Option Int
  deriving Repr, DecidableEq

/-- `saveToken(token, expiresIn)`: sets the in-memory token and persists
the token and the absolute expiry `Date.now() + expiresIn * 1000`. -/
def saveToken (now : Int) (token : String) (expiresIn : Int) (_s : CalTokenState) :
    CalTokenState :=
  { accessToken := some token, storedToken := some token,
    storedExpiry := some (now + expiresIn * 1000) }

/-- `clearToken()`: clears the in-memory token and removes both storage keys. -/
def clearToken (_s : CalTokenState) : CalTokenState :=
  { accessToken := none, storedToken := none, storedExpiry := none }

/-- `restoreToken()`: when both keys are present, restore the in-memory
token only if `expiry > now + 5 * 60 * 1000`; otherwise clear the stored
token.  With either key missing, do nothing. -/
def restoreToken (now : Int) (s : CalTokenState) : CalTokenState :=
  match s.storedToken, s.storedExpiry with
  | some tok, some expiry =>
      if expiry > now + 5 * 60 * 1000 then { s with accessToken := some tok }
      else clearToken s
  | some _, none => s
  | none, _ => s

/-- `isSignedIn()`: `this.accessToken !== null`. -/
def isSignedIn (s : CalTokenState) : Bool :=
  s.accessToken.isSome

/-- Caller-observable effects of one `checkAndRefreshToken` poll tick. -/
structure CalPollEffects where
  silentRefreshAttempted : Bool
  errorRaisedToCaller : Bool
  navigationForced : Bool
  deriving Repr, DecidableEq

/-- `checkAndRefreshToken()` — one background poll tick.  With no stored
expiry it returns at once.  Otherwise, when `expiry − now < 10 * 60 * 1000`
it attempts `silentRefresh()`; `refreshThrows` says whether that attempt
throws (Google Identity Services unavailable, or the token request
failing synchronously), in which case the `catch` clears the token.  The
function never throws to its caller and performs no navigation. -/
def checkAndRefreshToken (now : Int) (refreshThrows : Bool) (s : CalTokenState) :
    CalTokenState × CalPollEffects :=
  match s.storedExpiry with
  | none =>
      (s, { silentRefreshAttempted := false, errorRaisedToCaller := false,
            navigationForced := false })
  | some expiry =>
      if expiry - now < 10 * 60 * 1000 then
        if refreshThrows then
          (clearToken s,
           { silentRefreshAttempted := true, errorRaisedToCaller := false,
             navigationForced := false })
        else
          (s, { silentRefreshAttempted := true, errorRaisedToCaller := false,
                navigationForced := false })
      else
        (s, { silentRefreshAttempted := false, errorRaisedToCaller := false,
              navigationForced := false })

/-- Errors a calendar data operation can deliver. -/
inductive CalError where
  | notSignedIn
  | external (code : Nat)
  deriving Repr, DecidableEq

/-- Body of `getEvents` inside its `try` block: with no valid signed-in
token it throws `new Error('User not signed in to Google Calendar')`;
otherwise the result is whatever the Google Calendar API interaction
produces (`env`, an external outcome). -/
def getEventsBody (s : CalTokenState) (env : Except CalError (List String)) :
    Except CalError (List String) :=
  if ¬ isSignedIn s then Except.error CalError.notSignedIn else env

/-- `getEvents`: the `catch` block swallows every error and returns `[]`,
so the caller always receives a normal (non-rejected) result. -/
def getEvents (s : CalTokenState) (env : Except CalError (List String)) :
    Except CalError (List String) :=
  match getEventsBody s env with
  | Except.error _ => Except.ok []
  | Except.ok evs => Except.ok evs

/-- `createEvent`: throws on `!isSignedIn()`; its `catch` block rethrows,
so errors are delivered to the caller as a rejected operation. -/
def createEvent (s : CalTokenState) (env : Except CalError String) :
    Except CalError String :=
  if ¬ isSignedIn s then Except.error CalError.notSignedIn else env

/-- `updateEvent`: same signed-in guard and rethrowing `catch` as `createEvent`. -/
def updateEvent (s : CalTokenState) (env : Except CalError String) :
    Except CalError String :=
  if ¬ isSignedIn s then Except.error CalError.notSignedIn else env

/-- `deleteEvent`: same signed-in guard and rethrowing `catch` as `createEvent`. -/
def deleteEvent (s : CalTokenState) (env : Except CalError Unit) :
    Except CalError Unit :=
  if ¬ isSignedIn s then Except.error CalError.notSignedIn else env

/-! ## Concrete states used by counterexamples and witnesses -/

def sampleToken : String := "tok123"

def sampleUser : String := "usr"

/-- The world right after a successful login at time 0. -/
def loggedInWorld : World := login 0 sampleToken sampleUser initWorld

/-- The world after the warning timeout fired 25 minutes after login:
the session controller is authenticated and in the warning state. -/
def warnWorld : World := fireDueTimers (25 * 60 * 1000) loggedInWorld

/-- A calendar token manager with no token (signed out). -/
def calSignedOut : CalTokenState :=
  { accessToken := none, storedToken := none, storedExpiry := none }

/-- A throttle/inactivity detector configuration with both callbacks
provided and the component defaults (5-minute inactivity window, 1-second
throttle). -/
def defaultDetectorConfig : DetectorConfig :=
  { hasOnActivity := true, hasOnInactivity := true,
    inactivityTimeout := 5 * 60 * 1000, throttle := 1000 }

/-- A detector state as initialised by the hook's refs at mount time
`t = 0` (before the mount-time `handleActivity()` call). -/
def mountDetectorState : DetectorState :=
  { lastActivity := 0, throttleUntil := none, inactivityAt := none,
    isActive := true, onActivityCalls := 0, onInactivityCalls := 0 }

/-- `1` when the detector is in the active state, `0` otherwise
(measure used to express the edge-triggered inactivity invariant). -/
def activeBit (b : Bool) : Nat := if b then 1 else 0

/-! ## Storage lemmas -/

theorem Storage.getItem_removeItem (st : Storage) (k0 k : String) :
    (st.removeItem k0).getItem k = if k0 = k then none else st.getItem k := by
  induction st with
  | nil => simp [Storage.removeItem, Storage.getItem]
  | cons hd tl ih =>
      obtain ⟨k1, v1⟩ := hd
      by_cases h1 : k1 = k0 <;> by_cases h2 : k0 = k <;>
        simp_all [Storage.removeItem, Storage.getItem]

theorem Storage.getItem_setItem (st : Storage) (k0 v k : String) :
    (st.setItem k0 v).getItem k = if k0 = k then some v else st.getItem k := by
  by_cases h : k0 = k <;>
    simp [Storage.setItem, Storage.getItem, Storage.getItem_removeItem, h]

/-- `refreshAccessToken` never reaches its success path: unconditionally,
its result is a logged-out, unauthenticated world. -/
theorem refreshAccessToken_logs_out (now : Int) (r : Option String) (w : World) :
    (refreshAccessToken now r w).auth.loggedOut = true ∧
    (refreshAccessToken now r w).auth.isAuthenticated = false := by
  unfold refreshAccessToken
  cases h : w.storage.getItem refreshTokenKey with
  | none => simp [logout]
  | some rt =>
      have hm : ApiService.hasMethod (r"refreshToken") = false := by decide
      simp [hm, logout]

/-- Since `refreshAccessToken` always ends in `logout()`, it leaves no
pending warning or expiry timeout, and it never touches the count of
issued refresh calls. -/
theorem refreshAccessToken_clears_timers (now : Int) (r : Option String) (w : World) :
    (refreshAccessToken now r w).auth.warningAt = none ∧
    (refreshAccessToken now r w).auth.expireAt = none ∧
    (refreshAccessToken now r w).auth.refreshCallsIssued = w.auth.refreshCallsIssued := by
  unfold refreshAccessToken
  cases h : w.storage.getItem refreshTokenKey with
  | none => simp [logout]
  | some rt =>
      have hm : ApiService.hasMethod (r"refreshToken") = false := by decide
      simp [hm, logout]

/-- C2: After any login performed through this client, durable storage
contains no `refresh_token` key (login persists only `access_token` and
`user`, and the API service defines no `refreshToken` method), so every
invocation of the internal refresh path `refreshAccessToken` — whether
reached via `extendSession` or via the activity-triggered throttled
refresh — ends by invoking logout and terminating the session. -/
theorem login_leaves_no_refresh_token_and_refresh_always_logs_out :
    (∀ (st : Storage) (tok usr : String),
        st.getItem refreshTokenKey = none →
        (ApiService.loginStorage st tok usr).getItem refreshTokenKey = none) ∧
    ApiService.hasMethod (r"refreshToken") = false ∧
    (∀ (now : Int) (r : Option String) (w : World),
        (refreshAccessToken now r w).auth.loggedOut = true ∧
        (refreshAccessToken now r w).auth.isAuthenticated = false) ∧
    (∀ (now : Int) (r : Option String) (w : World),
        extendSession now r w = refreshAccessToken now r w) := by
  refine ⟨?_, by decide, fun now r w => refreshAccessToken_logs_out now r w,
          fun now r w => rfl⟩
  intro st tok usr h
  have h1 : accessTokenKey = refreshTokenKey ↔ False := by
    constructor
    · intro h
      exact absurd h (by decide)
    · intro h
      exact h.elim
  have h2 : userKey = refreshTokenKey ↔ False := by
    constructor
    · intro h
      exact absurd h (by decide)
    · intro h
      exact h.elim
  simp [ApiService.loginStorage, Storage.getItem_setItem, h1, h2, h]

theorem login_leaves_no_refresh_token_and_refresh_always_logs_out_witness :
    (ApiService.loginStorage emptyStorage sampleToken sampleUser).getItem refreshTokenKey = none ∧
    (refreshAccessToken 0 none loggedInWorld).auth.loggedOut = true :=
  ⟨login_leaves_no_refresh_token_and_refresh_always_logs_out.1 emptyStorage sampleToken
      sampleUser (by decide),
   (login_leaves_no_refresh_token_and_refresh_always_logs_out.2.2.1 0 none loggedInWorld).1⟩

/-- C1 (code behaviour at the failing input): in the warning state of a
session logged in through this client — where durable storage holds no
`refresh_token` — `extendSession()` does not refresh and return the
controller to the active state: it invokes `logout()` and terminates the
session, even when the server would have answered the refresh with a new
token. -/
theorem extendSession_in_warning_state_logs_out :
    warnWorld.auth.isAuthenticated = true ∧
    warnWorld.auth.sessionExpiringWarning = true ∧
    warnWorld.storage.getItem refreshTokenKey = none ∧
    (extendSession (26 * 60 * 1000) (some sampleToken) warnWorld).auth.loggedOut = true ∧
    (extendSession (26 * 60 * 1000) (some sampleToken) warnWorld).auth.isAuthenticated
      = false := by
  decide

/-- C3 (counterexample): an `onActivity` signal delivered at minute 26 to
an authenticated controller in the warning state does not re-arm the
Session Timer — the expiry deadline stays at its old value instead of
becoming now plus the 30-minute session lifetime (`handleUserActivity`
requires `!sessionExpiringWarning`). -/
theorem warning_state_activity_does_not_rearm :
    warnWorld.auth.isAuthenticated = true ∧
    warnWorld.auth.sessionExpiringWarning = true ∧
    (handleUserActivity (26 * 60 * 1000) none warnWorld).1.auth.expiryTime ≠
      some (26 * 60 * 1000 + TOKEN_EXPIRE_TIME) := by
  decide

/-- In the active state, a signal arriving more than the throttle window
after the last server refresh records the refresh time, counts one issued
refresh call, and synchronously runs `refreshAccessToken` on the
just-re-armed world. -/
theorem handleUserActivity_eligible (now : Int) (r : Option String) (w : World)
    (hauth : w.auth.isAuthenticated = true)
    (hwarn : w.auth.sessionExpiringWarning = false)
    (helig : now - w.auth.lastTokenRefresh > REFRESH_THROTTLE) :
    (handleUserActivity now r w).2 = true ∧
    (handleUserActivity now r w).1
      = refreshAccessToken now r
          { w with auth := { startExpirationTimers now w.auth with
                               lastTokenRefresh := now,
                               refreshCallsIssued := w.auth.refreshCallsIssued + 1 } } := by
  unfold handleUserActivity
  rw [if_pos ⟨by simp [hauth], by simp [hwarn]⟩]
  rw [if_pos (show now - (startExpirationTimers now w.auth).lastTokenRefresh
                > REFRESH_THROTTLE from helig)]
  exact ⟨rfl, rfl⟩

/-- In the active state, a signal arriving within the throttle window of
the last server refresh only re-arms the timers: no refresh call. -/
theorem handleUserActivity_dropped (now : Int) (r : Option String) (w : World)
    (hauth : w.auth.isAuthenticated = true)
    (hwarn : w.auth.sessionExpiringWarning = false)
    (hnot : ¬ (now - w.auth.lastTokenRefresh > REFRESH_THROTTLE)) :
    handleUserActivity now r w = ({ w with auth := startExpirationTimers now w.auth }, false) := by
  unfold handleUserActivity
  rw [if_pos ⟨by simp [hauth], by simp [hwarn]⟩]
  rw [if_neg (show ¬ (now - (startExpirationTimers now w.auth).lastTokenRefresh
                > REFRESH_THROTTLE) from hnot)]

/-- With no authenticated user, an activity signal does nothing. -/
theorem handleUserActivity_not_auth (now : Int) (r : Option String) (w : World)
    (h : w.auth.isAuthenticated = false) :
    handleUserActivity now r w = (w, false) := by
  unfold handleUserActivity
  rw [if_neg (by simp [h])]

/-- C3 (amended): an `onActivity` signal delivered while the session is
authenticated re-arms the Session Timer only outside the warning state,
and the re-armed state survives only for throttled signals: within 2
minutes of the last server refresh the expiry deadline, warning timeout
and expiry timeout are reset to now plus the 30-minute lifetime; a signal
arriving more than 2 minutes after the last refresh synchronously runs
the refresh path, which in this client ends in `logout()` — cancelling
the just-armed timeouts and terminating the session.  A signal delivered
in the warning state leaves the controller completely unchanged. -/
theorem activity_rearms_timer_only_outside_warning (now : Int) (r : Option String) (w : World)
    (hauth : w.auth.isAuthenticated = true) :
    (w.auth.sessionExpiringWarning = false →
        (¬ (now - w.auth.lastTokenRefresh > REFRESH_THROTTLE) →
            (handleUserActivity now r w).1.auth.expiryTime
              = some (now + TOKEN_EXPIRE_TIME) ∧
            (handleUserActivity now r w).1.auth.warningAt
              = some (now + TOKEN_EXPIRE_TIME - WARNING_TIME) ∧
            (handleUserActivity now r w).1.auth.expireAt
              = some (now + TOKEN_EXPIRE_TIME)) ∧
        (now - w.auth.lastTokenRefresh > REFRESH_THROTTLE →
            (handleUserActivity now r w).1.auth.loggedOut = true ∧
            (handleUserActivity now r w).1.auth.isAuthenticated = false ∧
            (handleUserActivity now r w).1.auth.warningAt = none ∧
            (handleUserActivity now r w).1.auth.expireAt = none)) ∧
    (w.auth.sessionExpiringWarning = true →
        handleUserActivity now r w = (w, false)) := by
  constructor
  · intro hwarn
    constructor
    · intro hnot
      rw [handleUserActivity_dropped now r w hauth hwarn hnot]
      simp [startExpirationTimers]
    · intro helig
      rw [(handleUserActivity_eligible now r w hauth hwarn helig).2]
      exact ⟨(refreshAccessToken_logs_out now r _).1,
             (refreshAccessToken_logs_out now r _).2,
             (refreshAccessToken_clears_timers now r _).1,
             (refreshAccessToken_clears_timers now r _).2.1⟩
  · intro hwarn
    simp [handleUserActivity, hwarn]

theorem activity_rearms_timer_only_outside_warning_witness :
    (handleUserActivity 60000 none loggedInWorld).1.auth.expiryTime
      = some (60000 + TOKEN_EXPIRE_TIME) :=
  (((activity_rearms_timer_only_outside_warning 60000 none loggedInWorld
      (by decide)).1 (by decide)).1 (by decide)).1

/-- C4 (counterexample): right after a login at time 0 the last-refresh
time is 0, so the two activity signals at 60 s and 90 s — less than 2
minutes apart — issue zero server refresh calls, not exactly one. -/
theorem close_signals_after_login_issue_no_refresh :
    loggedInWorld.auth.isAuthenticated = true ∧
    loggedInWorld.auth.sessionExpiringWarning = false ∧
    (runActivitySignals none [60000, 90000] loggedInWorld).auth.refreshCallsIssued = 0 := by
  decide

/-- C4 (amended): in the active state, two activity signals less than the
2-minute throttle window apart issue at most one server refresh call
between them; when the first of the two arrives more than 2 minutes after
the last server refresh, it issues a refresh and the pair issues exactly
one; a signal arriving within 2 minutes of the last refresh issues none. -/
theorem close_signals_issue_at_most_one_refresh (w : World) (r : Option String) (t1 t2 : Int)
    (hauth : w.auth.isAuthenticated = true)
    (hwarn : w.auth.sessionExpiringWarning = false)
    (horder : t1 ≤ t2) (hclose : t2 - t1 < REFRESH_THROTTLE) :
    (runActivitySignals r [t1, t2] w).auth.refreshCallsIssued
      ≤ w.auth.refreshCallsIssued + 1 ∧
    (t1 - w.auth.lastTokenRefresh > REFRESH_THROTTLE →
        (handleUserActivity t1 r w).2 = true ∧
        (runActivitySignals r [t1, t2] w).auth.refreshCallsIssued
          = w.auth.refreshCallsIssued + 1) := by
  have hrun : runActivitySignals r [t1, t2] w
      = (handleUserActivity t2 r (handleUserActivity t1 r w).1).1 := rfl
  by_cases h1 : t1 - w.auth.lastTokenRefresh > REFRESH_THROTTLE
  · obtain ⟨hf1, heq1⟩ := handleUserActivity_eligible t1 r w hauth hwarn h1
    have hW1auth : (handleUserActivity t1 r w).1.auth.isAuthenticated = false := by
      rw [heq1]
      exact (refreshAccessToken_logs_out t1 r _).2
    have hW1count : (handleUserActivity t1 r w).1.auth.refreshCallsIssued
        = w.auth.refreshCallsIssued + 1 := by
      rw [heq1, (refreshAccessToken_clears_timers t1 r _).2.2]
    have hstep2 := handleUserActivity_not_auth t2 r (handleUserActivity t1 r w).1 hW1auth
    rw [hrun, hstep2]
    exact ⟨le_of_eq hW1count, fun _ => ⟨hf1, hW1count⟩⟩
  · have heq1 := handleUserActivity_dropped t1 r w hauth hwarn h1
    have hW1 : (handleUserActivity t1 r w).1
        = { w with auth := startExpirationTimers t1 w.auth } := by
      rw [heq1]
    have hauth1 : (handleUserActivity t1 r w).1.auth.isAuthenticated = true := by
      rw [hW1]
      simpa [startExpirationTimers] using hauth
    have hwarn1 : (handleUserActivity t1 r w).1.auth.sessionExpiringWarning = false := by
      rw [hW1]
      simpa [startExpirationTimers] using hwarn
    have hcount1 : (handleUserActivity t1 r w).1.auth.refreshCallsIssued
        = w.auth.refreshCallsIssued := by
      rw [hW1]
      simp [startExpirationTimers]
    by_cases h2 : t2 - (handleUserActivity t1 r w).1.auth.lastTokenRefresh
        > REFRESH_THROTTLE
    · obtain ⟨hf2, heq2⟩ := handleUserActivity_eligible t2 r
        (handleUserActivity t1 r w).1 hauth1 hwarn1 h2
      have hW2count : (handleUserActivity t2 r
            (handleUserActivity t1 r w).1).1.auth.refreshCallsIssued
          = w.auth.refreshCallsIssued + 1 := by
        rw [heq2, (refreshAccessToken_clears_timers t2 r _).2.2]
        simp [hcount1]
      rw [hrun]
      exact ⟨le_of_eq hW2count, fun hx => absurd hx h1⟩
    · have heq2 := handleUserActivity_dropped t2 r
        (handleUserActivity t1 r w).1 hauth1 hwarn1 h2
      have hW2count : (handleUserActivity t2 r
            (handleUserActivity t1 r w).1).1.auth.refreshCallsIssued
          = w.auth.refreshCallsIssued := by
        rw [heq2]
        simpa [startExpirationTimers] using hcount1
      rw [hrun]
      refine ⟨?_, fun hx => absurd hx h1⟩
      rw [hW2count]
      exact Nat.le_succ _

theorem close_signals_issue_at_most_one_refresh_witness :
    (runActivitySignals none [130000, 150000] loggedInWorld).auth.refreshCallsIssued
      = loggedInWorld.auth.refreshCallsIssued + 1 :=
  ((close_signals_issue_at_most_one_refresh loggedInWorld none 130000 150000
      (by decide) (by decide) (by decide) (by decide)).2 (by decide)).2

/-- A virtual-time instant at which neither pending session deadline has
been reached fires nothing: the world is unchanged. -/
theorem fireDueTimers_skip (t : Int) (w : World)
    (hw : ∀ d, w.auth.warningAt = some d → t < d)
    (he : ∀ d, w.auth.expireAt = some d → t < d) :
    fireDueTimers t w = w := by
  unfold fireDueTimers
  cases hwa : w.auth.warningAt with
  | none =>
      cases hea : w.auth.expireAt with
      | none => simp [hwa, hea]
      | some de => simp [hwa, hea, not_le.mpr (he de hea)]
  | some dw =>
      cases hea : w.auth.expireAt with
      | none => simp [hwa, hea, not_le.mpr (hw dw hwa)]
      | some de => simp [hwa, hea, not_le.mpr (hw dw hwa), not_le.mpr (he de hea)]

/-- When only the warning deadline has been reached, exactly the warning
callback runs: it sets the warning flag and consumes its timeout. -/
theorem fireDueTimers_warning_fire (t : Int) (w : World) (dw de : Int)
    (hwa : w.auth.warningAt = some dw) (hdw : dw ≤ t)
    (hea : w.auth.expireAt = some de) (hde : t < de) :
    fireDueTimers t w
      = { w with auth := { w.auth with
                             warningAt := none,
                             sessionExpiringWarning := true,
                             warningFiredCount := w.auth.warningFiredCount + 1 } } := by
  unfold fireDueTimers
  simp [hwa, hea, hdw, not_le.mpr hde]

/-- When the expiry deadline has been reached with no pending warning
timeout, the expiry callback runs and invokes `logout()`. -/
theorem fireDueTimers_expire_fire (t : Int) (w : World) (de : Int)
    (hwa : w.auth.warningAt = none)
    (hea : w.auth.expireAt = some de) (hde : de ≤ t) :
    fireDueTimers t w
      = logout { w with auth := { w.auth with
                                    expireAt := none,
                                    expireFiredCount := w.auth.expireFiredCount + 1 } } := by
  unfold fireDueTimers
  simp [hwa, hea, hde]

/-- C5: Arming the session timer (at virtual time 0) with lifetime
`L = TOKEN_EXPIRE_TIME` (30 minutes) fires no callback at any virtual
time before `L − WARNING_TIME`; the warning callback fires exactly once
at `L − WARNING_TIME` (and not again before `L`); the expiry callback
fires exactly once at `L` and unconditionally invokes `logout`; and
re-arming before expiry replaces the pending schedules with the new
deadlines, so the previously scheduled warning and expiry callbacks never
fire. -/
theorem session_timer_schedule (w : World) :
    (∀ t : Int, t < TOKEN_EXPIRE_TIME - WARNING_TIME →
        fireDueTimers t (armSession 0 w) = armSession 0 w) ∧
    ((fireDueTimers (TOKEN_EXPIRE_TIME - WARNING_TIME) (armSession 0 w)).auth.warningFiredCount
        = w.auth.warningFiredCount + 1 ∧
     (fireDueTimers (TOKEN_EXPIRE_TIME - WARNING_TIME) (armSession 0 w)).auth.sessionExpiringWarning
        = true ∧
     (fireDueTimers (TOKEN_EXPIRE_TIME - WARNING_TIME) (armSession 0 w)).auth.expireFiredCount
        = w.auth.expireFiredCount ∧
     (fireDueTimers (TOKEN_EXPIRE_TIME - WARNING_TIME) (armSession 0 w)).auth.loggedOut
        = w.auth.loggedOut) ∧
    (∀ t : Int, TOKEN_EXPIRE_TIME - WARNING_TIME ≤ t → t < TOKEN_EXPIRE_TIME →
        fireDueTimers t (fireDueTimers (TOKEN_EXPIRE_TIME - WARNING_TIME) (armSession 0 w))
          = fireDueTimers (TOKEN_EXPIRE_TIME - WARNING_TIME) (armSession 0 w)) ∧
    ((fireDueTimers TOKEN_EXPIRE_TIME
        (fireDueTimers (TOKEN_EXPIRE_TIME - WARNING_TIME) (armSession 0 w))).auth.expireFiredCount
        = w.auth.expireFiredCount + 1 ∧
     (fireDueTimers TOKEN_EXPIRE_TIME
        (fireDueTimers (TOKEN_EXPIRE_TIME - WARNING_TIME) (armSession 0 w))).auth.loggedOut
        = true ∧
     (fireDueTimers TOKEN_EXPIRE_TIME
        (fireDueTimers (TOKEN_EXPIRE_TIME - WARNING_TIME) (armSession 0 w))).auth.isAuthenticated
        = false) ∧
    (∀ t : Int,
        fireDueTimers t (fireDueTimers TOKEN_EXPIRE_TIME
            (fireDueTimers (TOKEN_EXPIRE_TIME - WARNING_TIME) (armSession 0 w)))
          = fireDueTimers TOKEN_EXPIRE_TIME
              (fireDueTimers (TOKEN_EXPIRE_TIME - WARNING_TIME) (armSession 0 w))) ∧
    (∀ t1 t : Int, t1 < TOKEN_EXPIRE_TIME → t < t1 + TOKEN_EXPIRE_TIME - WARNING_TIME →
        (armSession t1 (fireDueTimers t1 (armSession 0 w))).auth.warningAt
          = some (t1 + TOKEN_EXPIRE_TIME - WARNING_TIME) ∧
        (armSession t1 (fireDueTimers t1 (armSession 0 w))).auth.expireAt
          = some (t1 + TOKEN_EXPIRE_TIME) ∧
        fireDueTimers t (armSession t1 (fireDueTimers t1 (armSession 0 w)))
          = armSession t1 (fireDueTimers t1 (armSession 0 w))) := by
  have harmW : ∀ t0 : Int, ∀ x : World,
      (armSession t0 x).auth.warningAt = some (t0 + TOKEN_EXPIRE_TIME - WARNING_TIME) := by
    intro t0 x
    simp [armSession, startExpirationTimers]
  have harmE : ∀ t0 : Int, ∀ x : World,
      (armSession t0 x).auth.expireAt = some (t0 + TOKEN_EXPIRE_TIME) := by
    intro t0 x
    simp [armSession, startExpirationTimers]
  have hwfire : fireDueTimers (TOKEN_EXPIRE_TIME - WARNING_TIME) (armSession 0 w)
      = { armSession 0 w with
            auth := { (armSession 0 w).auth with
                        warningAt := none,
                        sessionExpiringWarning := true,
                        warningFiredCount := (armSession 0 w).auth.warningFiredCount + 1 } } := by
    apply fireDueTimers_warning_fire (TOKEN_EXPIRE_TIME - WARNING_TIME) (armSession 0 w)
      (0 + TOKEN_EXPIRE_TIME - WARNING_TIME) (0 + TOKEN_EXPIRE_TIME) (harmW 0 w)
      (by simp [TOKEN_EXPIRE_TIME, WARNING_TIME]) (harmE 0 w)
      (by simp [TOKEN_EXPIRE_TIME, WARNING_TIME])
  refine ⟨?_, ?_, ?_, ?_, ?_, ?_⟩
  · intro t ht
    apply fireDueTimers_skip
    · intro d hd
      rw [harmW 0 w] at hd
      simp only [Option.some.injEq] at hd
      omega
    · intro d hd
      rw [harmE 0 w] at hd
      simp only [Option.some.injEq] at hd
      simp only [TOKEN_EXPIRE_TIME, WARNING_TIME] at ht hd ⊢
      omega
  · rw [hwfire]
    simp [armSession, startExpirationTimers]
  · intro t hlo hhi
    rw [hwfire]
    apply fireDueTimers_skip
    · intro d hd
      simp at hd
    · intro d hd
      simp only [armSession, startExpirationTimers] at hd
      simp only [Option.some.injEq] at hd
      omega
  · rw [hwfire]
    rw [fireDueTimers_expire_fire TOKEN_EXPIRE_TIME _ (0 + TOKEN_EXPIRE_TIME)
          (by simp) (by simp [armSession, startExpirationTimers]) (by omega)]
    simp [logout, ApiService.logoutStorage, armSession, startExpirationTimers]
  · intro t
    rw [hwfire]
    rw [fireDueTimers_expire_fire TOKEN_EXPIRE_TIME _ (0 + TOKEN_EXPIRE_TIME)
          (by simp) (by simp [armSession, startExpirationTimers]) (by omega)]
    apply fireDueTimers_skip
    · intro d hd
      simp [logout] at hd
    · intro d hd
      simp [logout] at hd
  · intro t1 t ht1 ht
    refine ⟨?_, ?_, ?_⟩
    · rw [harmW]
    · rw [harmE]
    · apply fireDueTimers_skip
      · intro d hd
        rw [harmW] at hd
        simp only [Option.some.injEq] at hd
        omega
      · intro d hd
        rw [harmE] at hd
        simp only [Option.some.injEq] at hd
        simp only [TOKEN_EXPIRE_TIME, WARNING_TIME] at ht hd ⊢
        omega

theorem session_timer_schedule_witness :
    fireDueTimers 1499999 (armSession 0 initWorld) = armSession 0 initWorld ∧
    (fireDueTimers 1800000
        (fireDueTimers 1500000 (armSession 0 initWorld))).auth.loggedOut = true :=
  ⟨(session_timer_schedule initWorld).1 1499999 (by decide),
   (by
      have h := ((session_timer_schedule initWorld).2.2.2.1).2.1
      simpa [TOKEN_EXPIRE_TIME, WARNING_TIME] using h)⟩

/-! ## Activity-detector lemmas -/

/-- The throttle-release timeout touches only `throttleUntil`. -/
theorem releaseThrottleIfDue_fields (t : Int) (s : DetectorState) :
    (releaseThrottleIfDue t s).onActivityCalls = s.onActivityCalls ∧
    (releaseThrottleIfDue t s).lastActivity = s.lastActivity ∧
    (releaseThrottleIfDue t s).inactivityAt = s.inactivityAt ∧
    (releaseThrottleIfDue t s).isActive = s.isActive ∧
    (releaseThrottleIfDue t s).onInactivityCalls = s.onInactivityCalls := by
  unfold releaseThrottleIfDue
  rcases h : s.throttleUntil with _ | u
  · simp [h]
  · simp only [h]
    split_ifs <;> simp

/-- The throttle-release timeout, once due, resets the throttle ref. -/
theorem releaseThrottleIfDue_release (t u : Int) (s : DetectorState)
    (h : s.throttleUntil = some u) (hle : u ≤ t) :
    (releaseThrottleIfDue t s).throttleUntil = none := by
  unfold releaseThrottleIfDue
  simp [h, hle]

/-- A pending throttle window that has not elapsed is kept. -/
theorem releaseThrottleIfDue_keep (t u : Int) (s : DetectorState)
    (h : s.throttleUntil = some u) (hgt : ¬ u ≤ t) :
    (releaseThrottleIfDue t s).throttleUntil = some u := by
  unfold releaseThrottleIfDue
  simp [h, hgt]

/-- With no pending throttle window, the release step leaves none. -/
theorem releaseThrottleIfDue_of_none (t : Int) (s : DetectorState)
    (h : s.throttleUntil = none) :
    (releaseThrottleIfDue t s).throttleUntil = none := by
  unfold releaseThrottleIfDue
  simp [h]

/-- The inactivity timeout callback touches neither the `onActivity`
count, the throttle ref, nor `lastActivity`. -/
theorem fireInactivityIfDue_fields (cfg : DetectorConfig) (t : Int) (s : DetectorState) :
    (fireInactivityIfDue cfg t s).onActivityCalls = s.onActivityCalls ∧
    (fireInactivityIfDue cfg t s).throttleUntil = s.throttleUntil ∧
    (fireInactivityIfDue cfg t s).lastActivity = s.lastActivity := by
  unfold fireInactivityIfDue
  rcases h : s.inactivityAt with _ | d
  · simp [h]
  · simp only [h]
    split_ifs <;> simp

/-- The inactivity callback can only trade the active bit for one
`onInactivity` call: the edge measure never increases. -/
theorem fireInactivityIfDue_measure (cfg : DetectorConfig) (t : Int) (s : DetectorState) :
    (fireInactivityIfDue cfg t s).onInactivityCalls
      + activeBit (fireInactivityIfDue cfg t s).isActive
      ≤ s.onInactivityCalls + activeBit s.isActive := by
  unfold fireInactivityIfDue
  rcases h : s.inactivityAt with _ | d
  · simp [h]
  · simp only [h]
    split_ifs <;> simp_all [activeBit]

/-- While the detector is inactive, the inactivity callback never invokes
`onInactivity` again. -/
theorem fireInactivityIfDue_inactive (cfg : DetectorConfig) (t : Int) (s : DetectorState)
    (hs : s.isActive = false) :
    (fireInactivityIfDue cfg t s).onInactivityCalls = s.onInactivityCalls := by
  unfold fireInactivityIfDue
  rcases h : s.inactivityAt with _ | d
  · simp [h]
  · simp only [h]
    split_ifs <;> simp_all

/-- A due inactivity deadline with the detector active (and a callback
provided) fires exactly once: one `onInactivity` call, `isActive` flips to
false and the one-shot timeout is consumed. -/
theorem fireInactivityIfDue_fire (cfg : DetectorConfig) (t d : Int) (s : DetectorState)
    (hact : s.isActive = true) (hcb : cfg.hasOnInactivity = true)
    (hat : s.inactivityAt = some d) (hdue : d ≤ t) :
    (fireInactivityIfDue cfg t s).onInactivityCalls = s.onInactivityCalls + 1 ∧
    (fireInactivityIfDue cfg t s).isActive = false ∧
    (fireInactivityIfDue cfg t s).inactivityAt = none := by
  unfold fireInactivityIfDue
  simp [hat, hdue, hact, hcb]

/-- Timer firings never invoke `onActivity`. -/
theorem fireDetectorTimers_activityCalls (cfg : DetectorConfig) (t : Int) (s : DetectorState) :
    (fireDetectorTimers cfg t s).onActivityCalls = s.onActivityCalls := by
  have h1 := releaseThrottleIfDue_fields t s
  have h2 := fireInactivityIfDue_fields cfg t (releaseThrottleIfDue t s)
  unfold fireDetectorTimers
  rw [h2.1, h1.1]

/-- The throttle-release behaviour lifts to the combined timer firing. -/
theorem fireDetectorTimers_throttle_release (cfg : DetectorConfig) (t u : Int)
    (s : DetectorState) (h : s.throttleUntil = some u) (hle : u ≤ t) :
    (fireDetectorTimers cfg t s).throttleUntil = none := by
  have h2 := fireInactivityIfDue_fields cfg t (releaseThrottleIfDue t s)
  unfold fireDetectorTimers
  rw [h2.2.1, releaseThrottleIfDue_release t u s h hle]

/-- A not-yet-elapsed throttle window survives the combined timer firing. -/
theorem fireDetectorTimers_throttle_keep (cfg : DetectorConfig) (t u : Int)
    (s : DetectorState) (h : s.throttleUntil = some u) (hgt : ¬ u ≤ t) :
    (fireDetectorTimers cfg t s).throttleUntil = some u := by
  have h2 := fireInactivityIfDue_fields cfg t (releaseThrottleIfDue t s)
  unfold fireDetectorTimers
  rw [h2.2.1, releaseThrottleIfDue_keep t u s h hgt]

/-- With no throttle window pending, the combined timer firing leaves none. -/
theorem fireDetectorTimers_throttle_of_none (cfg : DetectorConfig) (t : Int)
    (s : DetectorState) (h : s.throttleUntil = none) :
    (fireDetectorTimers cfg t s).throttleUntil = none := by
  have h2 := fireInactivityIfDue_fields cfg t (releaseThrottleIfDue t s)
  unfold fireDetectorTimers
  rw [h2.2.1, releaseThrottleIfDue_of_none t s h]

/-- Timer firing can only decrease the edge measure
`onInactivityCalls + activeBit isActive`. -/
theorem fireDetectorTimers_measure (cfg : DetectorConfig) (t : Int) (s : DetectorState) :
    (fireDetectorTimers cfg t s).onInactivityCalls
      + activeBit (fireDetectorTimers cfg t s).isActive
      ≤ s.onInactivityCalls + activeBit s.isActive := by
  have h1 := releaseThrottleIfDue_fields t s
  have h2 := fireInactivityIfDue_measure cfg t (releaseThrottleIfDue t s)
  unfold fireDetectorTimers
  rw [h1.2.2.2.2, h1.2.2.2.1] at h2
  exact h2

/-- With no throttle window pending, a raw event is forwarded: `onActivity`
is invoked and a new throttle window opens. -/
theorem handleActivity_forward (cfg : DetectorConfig) (t : Int) (s : DetectorState)
    (h : s.throttleUntil = none) (hA : cfg.hasOnActivity = true) :
    (handleActivity cfg t s).onActivityCalls = s.onActivityCalls + 1 ∧
    (handleActivity cfg t s).throttleUntil = some (t + cfg.throttle) := by
  cases hs : s.isActive <;> simp [handleActivity, h, hA, hs]

/-- With a throttle window pending, a raw event is dropped: no
`onActivity` call, the pending window unchanged. -/
theorem handleActivity_drop (cfg : DetectorConfig) (t u : Int) (s : DetectorState)
    (h : s.throttleUntil = some u) :
    (handleActivity cfg t s).onActivityCalls = s.onActivityCalls ∧
    (handleActivity cfg t s).throttleUntil = some u := by
  cases hs : s.isActive <;> cases hA : cfg.hasOnActivity <;>
    simp [handleActivity, h, hA, hs]

/-- `handleActivity` does not invoke `onInactivity`. -/
theorem handleActivity_inactivityCalls (cfg : DetectorConfig) (t : Int) (s : DetectorState) :
    (handleActivity cfg t s).onInactivityCalls = s.onInactivityCalls := by
  cases hs : s.isActive <;> cases hA : cfg.hasOnActivity <;>
    rcases h : s.throttleUntil with _ | u <;>
    simp [handleActivity, h, hA, hs]

/-- A raw event can only increase the edge measure by one (it may set the
active bit). -/
theorem handleActivity_measure (cfg : DetectorConfig) (t : Int) (s : DetectorState) :
    (handleActivity cfg t s).onInactivityCalls
      + activeBit (handleActivity cfg t s).isActive
      ≤ s.onInactivityCalls + activeBit s.isActive + 1 := by
  cases hs : s.isActive <;> cases hA : cfg.hasOnActivity <;>
    rcases h : s.throttleUntil with _ | u <;>
    simp [handleActivity, h, hA, hs, activeBit]

/-- The edge measure over a whole run is bounded by the initial measure
plus the number of raw events. -/
theorem runDetector_measure (cfg : DetectorConfig) :
    ∀ (steps : List DetectorStep) (s0 : DetectorState),
      (runDetector cfg steps s0).onInactivityCalls
        + activeBit (runDetector cfg steps s0).isActive
        ≤ s0.onInactivityCalls + activeBit s0.isActive + countEvents steps := by
  intro steps
  induction steps with
  | nil => intro s0; simp [runDetector, countEvents]
  | cons hd rest ih =>
      intro s0
      cases hd with
      | ev t =>
          have h1 := fireDetectorTimers_measure cfg t s0
          have h2 := handleActivity_measure cfg t (fireDetectorTimers cfg t s0)
          have h3 := ih (handleActivity cfg t (fireDetectorTimers cfg t s0))
          simp only [runDetector, countEvents]
          omega
      | advance t =>
          have h1 := fireDetectorTimers_measure cfg t s0
          have h3 := ih (fireDetectorTimers cfg t s0)
          simp only [runDetector, countEvents]
          omega

/-- C6: the Activity Detector's inactivity transition is edge-triggered:
over any run, the number of `onInactivity` invocations never exceeds the
number of raw activity events plus one (so `onInactivity` never fires
twice without an intervening activity event); when the inactivity
deadline elapses while active, `onInactivity` fires once, flipping
`isActive` to false and consuming the deadline; while inactive no timer
firing can invoke `onInactivity` again; and a single subsequent activity
event restores `isActive = true` and re-arms the inactivity deadline,
re-enabling a future firing. -/
theorem detector_inactivity_edge_triggered (cfg : DetectorConfig) :
    (∀ (steps : List DetectorStep) (s0 : DetectorState),
        (runDetector cfg steps s0).onInactivityCalls
          ≤ s0.onInactivityCalls + activeBit s0.isActive + countEvents steps) ∧
    (∀ (t : Int) (s : DetectorState), s.isActive = false →
        (fireDetectorTimers cfg t s).onInactivityCalls = s.onInactivityCalls) ∧
    (∀ (t d : Int) (s : DetectorState), s.isActive = true →
        cfg.hasOnInactivity = true → s.inactivityAt = some d → d ≤ t →
        (fireDetectorTimers cfg t s).onInactivityCalls = s.onInactivityCalls + 1 ∧
        (fireDetectorTimers cfg t s).isActive = false ∧
        (fireDetectorTimers cfg t s).inactivityAt = none) ∧
    (∀ (t : Int) (s : DetectorState), cfg.hasOnActivity = true →
        (handleActivity cfg t s).isActive = true ∧
        (handleActivity cfg t s).inactivityAt = some (t + cfg.inactivityTimeout)) := by
  refine ⟨?_, ?_, ?_, ?_⟩
  · intro steps s0
    have h := runDetector_measure cfg steps s0
    omega
  · intro t s hs
    have h1 := releaseThrottleIfDue_fields t s
    have h2 := fireInactivityIfDue_inactive cfg t (releaseThrottleIfDue t s)
      (by rw [h1.2.2.2.1]; exact hs)
    unfold fireDetectorTimers
    rw [h2, h1.2.2.2.2]
  · intro t d s hact hcb hat hdue
    have h1 := releaseThrottleIfDue_fields t s
    have h2 := fireInactivityIfDue_fire cfg t d (releaseThrottleIfDue t s)
      (by rw [h1.2.2.2.1]; exact hact) hcb (by rw [h1.2.2.1]; exact hat) hdue
    unfold fireDetectorTimers
    rw [h2.1, h2.2.1, h1.2.2.2.2]
    exact ⟨rfl, rfl, h2.2.2⟩
  · intro t s hA
    cases hs : s.isActive <;> rcases h : s.throttleUntil with _ | u <;>
      simp [handleActivity, h, hA, hs]

theorem detector_inactivity_edge_triggered_witness :
    (fireDetectorTimers defaultDetectorConfig 300000
        (handleActivity defaultDetectorConfig 0 mountDetectorState)).onInactivityCalls
      = (handleActivity defaultDetectorConfig 0 mountDetectorState).onInactivityCalls + 1 :=
  ((detector_inactivity_edge_triggered defaultDetectorConfig).2.2.1 300000 300000
      (handleActivity defaultDetectorConfig 0 mountDetectorState)
      (by decide) (by decide) (by decide) (by decide)).1

/-- After a forwarded event at `prev` opened a throttle window, a chain
of events each more than the throttle window after its predecessor is
forwarded in full. -/
theorem runEvents_spaced_aux (cfg : DetectorConfig) (hA : cfg.hasOnActivity = true) :
    ∀ (ts : List Int) (prev : Int) (s : DetectorState),
      s.throttleUntil = some (prev + cfg.throttle) →
      List.Chain' (fun a b => a + cfg.throttle < b) (prev :: ts) →
      (runEvents cfg ts s).onActivityCalls = s.onActivityCalls + ts.length := by
  intro ts
  induction ts with
  | nil =>
      intro prev s hthr hc
      simp [runEvents, runDetector]
  | cons t rest ih =>
      intro prev s hthr hc
      have hrel : prev + cfg.throttle < t := (List.chain'_cons.mp hc).1
      have hrest := (List.chain'_cons.mp hc).2
      have hfire : (fireDetectorTimers cfg t s).throttleUntil = none :=
        fireDetectorTimers_throttle_release cfg t (prev + cfg.throttle) s hthr
          (le_of_lt hrel)
      have hcalls := fireDetectorTimers_activityCalls cfg t s
      have hfwd := handleActivity_forward cfg t (fireDetectorTimers cfg t s) hfire hA
      have hnext := ih t (handleActivity cfg t (fireDetectorTimers cfg t s)) hfwd.2 hrest
      show (runEvents cfg rest
              (handleActivity cfg t (fireDetectorTimers cfg t s))).onActivityCalls
          = s.onActivityCalls + (rest.length + 1)
      rw [hnext, hfwd.1, hcalls]
      omega

/-- While a throttle window is pending, every event before its deadline is
dropped and the window is kept. -/
theorem runEvents_drop_aux (cfg : DetectorConfig) :
    ∀ (ts : List Int) (u : Int) (s : DetectorState),
      s.throttleUntil = some u → (∀ x ∈ ts, ¬ u ≤ x) →
      (runEvents cfg ts s).onActivityCalls = s.onActivityCalls ∧
      (runEvents cfg ts s).throttleUntil = some u := by
  intro ts
  induction ts with
  | nil => intro u s h hx; exact ⟨rfl, h⟩
  | cons t rest ih =>
      intro u s hthr hx
      have hkeep := fireDetectorTimers_throttle_keep cfg t u s hthr (hx t (by simp))
      have hcalls := fireDetectorTimers_activityCalls cfg t s
      have hdrop := handleActivity_drop cfg t u (fireDetectorTimers cfg t s) hkeep
      have hnext := ih u (handleActivity cfg t (fireDetectorTimers cfg t s)) hdrop.2
        (fun x hxm => hx x (by simp [hxm]))
      refine ⟨?_, ?_⟩
      · show (runEvents cfg rest
                (handleActivity cfg t (fireDetectorTimers cfg t s))).onActivityCalls
            = s.onActivityCalls
        rw [hnext.1, hdrop.1, hcalls]
      · show (runEvents cfg rest
                (handleActivity cfg t (fireDetectorTimers cfg t s))).throttleUntil
            = some u
        exact hnext.2

/-- C7: for every sequence of raw activity events each more than the
throttle window after its predecessor (starting with no pending window),
`onActivity` is invoked exactly once per event; for a burst of events all
within the throttle window opened by its first event, only that first
event triggers `onActivity` and the later ones are dropped; and every raw
event, forwarded or dropped, resets the inactivity deadline to its time
plus the inactivity window (recording the activity time). -/
theorem detector_throttle_forwarding (cfg : DetectorConfig)
    (hA : cfg.hasOnActivity = true) :
    (∀ (s0 : DetectorState) (t : Int) (ts : List Int),
        s0.throttleUntil = none →
        List.Chain' (fun a b => a + cfg.throttle < b) (t :: ts) →
        (runEvents cfg (t :: ts) s0).onActivityCalls
          = s0.onActivityCalls + (t :: ts).length) ∧
    (∀ (s0 : DetectorState) (t : Int) (ts : List Int),
        s0.throttleUntil = none →
        (∀ x ∈ ts, t ≤ x ∧ x < t + cfg.throttle) →
        (runEvents cfg (t :: ts) s0).onActivityCalls = s0.onActivityCalls + 1) ∧
    (∀ (t : Int) (s : DetectorState),
        (handleActivity cfg t s).inactivityAt = some (t + cfg.inactivityTimeout) ∧
        (handleActivity cfg t s).lastActivity = t) := by
  refine ⟨?_, ?_, ?_⟩
  · intro s0 t ts h0 hc
    have hfire := fireDetectorTimers_throttle_of_none cfg t s0 h0
    have hcalls := fireDetectorTimers_activityCalls cfg t s0
    have hfwd := handleActivity_forward cfg t (fireDetectorTimers cfg t s0) hfire hA
    have hnext := runEvents_spaced_aux cfg hA ts t
      (handleActivity cfg t (fireDetectorTimers cfg t s0)) hfwd.2 hc
    show (runEvents cfg ts
            (handleActivity cfg t (fireDetectorTimers cfg t s0))).onActivityCalls
        = s0.onActivityCalls + (ts.length + 1)
    rw [hnext, hfwd.1, hcalls]
    omega
  · intro s0 t ts h0 hin
    have hfire := fireDetectorTimers_throttle_of_none cfg t s0 h0
    have hcalls := fireDetectorTimers_activityCalls cfg t s0
    have hfwd := handleActivity_forward cfg t (fireDetectorTimers cfg t s0) hfire hA
    have hnext := runEvents_drop_aux cfg ts (t + cfg.throttle)
      (handleActivity cfg t (fireDetectorTimers cfg t s0)) hfwd.2
      (fun x hxm => not_le.mpr (hin x hxm).2)
    show (runEvents cfg ts
            (handleActivity cfg t (fireDetectorTimers cfg t s0))).onActivityCalls
        = s0.onActivityCalls + 1
    rw [hnext.1, hfwd.1, hcalls]
  · intro t s
    cases hs : s.isActive <;> rcases h : s.throttleUntil with _ | u <;>
      simp [handleActivity, h, hA, hs]

theorem detector_throttle_forwarding_witness :
    (runEvents defaultDetectorConfig [0, 2000, 4000] mountDetectorState).onActivityCalls
      = mountDetectorState.onActivityCalls + 3 :=
  (detector_throttle_forwarding defaultDetectorConfig (by decide)).1 mountDetectorState 0
    [2000, 4000] (by decide)
    (by norm_num [List.chain'_cons, defaultDetectorConfig])

/-- C8: Token Store round-trip: `save(t, 3600)` followed immediately by
`restore()` yields `t`; once time has advanced past `3600 − 300` seconds
after the save (so the stored expiry no longer exceeds now plus the
5-minute safety buffer), `restore()` returns nothing and clears both
persisted fields (token and expiry) as well as the in-memory token. -/
theorem calendar_token_roundtrip (now later : Int) (t : String) (s : CalTokenState)
    (hadv : now + (3600 - 300) * 1000 ≤ later) :
    (restoreToken now (saveToken now t 3600 s)).accessToken = some t ∧
    restoreToken later (saveToken now t 3600 s)
      = { accessToken := none, storedToken := none, storedExpiry := none } := by
  constructor
  · simp only [saveToken, restoreToken]
    rw [if_pos (by omega)]
  · simp only [saveToken, restoreToken, clearToken]
    rw [if_neg (by omega)]

theorem calendar_token_roundtrip_witness :
    (restoreToken 0 (saveToken 0 sampleToken 3600 calSignedOut)).accessToken
      = some sampleToken ∧
    restoreToken 3300000 (saveToken 0 sampleToken 3600 calSignedOut)
      = { accessToken := none, storedToken := none, storedExpiry := none } :=
  calendar_token_roundtrip 0 3300000 sampleToken calSignedOut (by decide)

/-- C9: on a background poll tick of the Calendar Token Manager, when the
stored token's remaining lifetime is below the 10-minute buffer a silent
(no-UI) reissue is attempted; if that silent refresh fails, the stored
token is cleared — the in-memory token and both storage keys — and the
tick neither raises a synchronous error to any caller nor forces
navigation. -/
theorem calendar_poll_silent_refresh (now expiry : Int) (thr : Bool) (s : CalTokenState)
    (hexp : s.storedExpiry = some expiry)
    (hlow : expiry - now < CALENDAR_REFRESH_BUFFER) :
    (checkAndRefreshToken now thr s).2.silentRefreshAttempted = true ∧
    (thr = true →
        (checkAndRefreshToken now thr s).1
          = { accessToken := none, storedToken := none, storedExpiry := none }) ∧
    (checkAndRefreshToken now thr s).2.errorRaisedToCaller = false ∧
    (checkAndRefreshToken now thr s).2.navigationForced = false := by
  unfold checkAndRefreshToken
  simp only [hexp]
  rw [if_pos (by simpa [CALENDAR_REFRESH_BUFFER] using hlow)]
  cases thr <;> simp [clearToken]

theorem calendar_poll_silent_refresh_witness :
    (checkAndRefreshToken 3000001 true (saveToken 0 sampleToken 3600 calSignedOut)).1
      = { accessToken := none, storedToken := none, storedExpiry := none } :=
  (calendar_poll_silent_refresh 3000001 3600000 true
      (saveToken 0 sampleToken 3600 calSignedOut) (by decide) (by decide)).2.1 (by decide)

/-- C10 (counterexample): `getEvents`, invoked while `isSignedIn()` is
false, does not deliver an Unauthenticated error to the caller: its
`catch` block swallows the thrown not-signed-in error and the operation
resolves normally with an empty event list. -/
theorem getEvents_not_signed_in_returns_empty_list :
    isSignedIn calSignedOut = false ∧
    getEvents calSignedOut (Except.ok [r"someEvent"]) = Except.ok [] :=
  ⟨rfl, rfl⟩

/-- C10 (amended): calendar event creation, update and deletion invoked
while `isSignedIn()` is false fail by delivering the not-signed-in error
to the caller as a rejected operation; event listing (`getEvents`)
instead catches the error internally and resolves with an empty list
rather than rejecting. -/
theorem calendar_operations_not_signed_in (s : CalTokenState)
    (envC envU : Except CalError String) (envD : Except CalError Unit)
    (envG : Except CalError (List String))
    (h : isSignedIn s = false) :
    createEvent s envC = Except.error CalError.notSignedIn ∧
    updateEvent s envU = Except.error CalError.notSignedIn ∧
    deleteEvent s envD = Except.error CalError.notSignedIn ∧
    getEvents s envG = Except.ok [] := by
  simp [createEvent, updateEvent, deleteEvent, getEvents, getEventsBody, h]

theorem calendar_operations_not_signed_in_witness :
    createEvent calSignedOut (Except.ok sampleToken)
      = Except.error CalError.notSignedIn :=
  (calendar_operations_not_signed_in calSignedOut (Except.ok sampleToken)
      (Except.ok sampleToken) (Except.ok ()) (Except.ok []) (by decide)).1

end Mnemosine
